import Mathlib

/-!
Verification of the batch-processing, export and camera core of the
age-detection desktop application.

The development shallowly embeds the relevant Python source files:

* `src/utils/helpers.py` — filename generation, supported-image checks;
* `src/analysis.py` — `FaceAnalyzer.analyze_face` (the inference gateway
  is an opaque parameter `deepface : List String → Option AnalysisRecord`,
  matching the contract "returns the first face record or none");
* `src/batch_processor.py` — `BatchProcessor.process_folder`,
  `_process_single_file`, `cancel_processing`, `export_results`;
* `src/export.py` — `Exporter.export_to_csv`, `export_to_json`,
  `export_results`;
* `src/camera.py` — the `Camera` state machine around `start`, the
  capture loop body, `get_frame` and `stop`.

Modelling conventions:

* Machine effects are made explicit: the filesystem is a `FolderInput`
  (does the path exist, is it a directory, which file names live under
  it — directly, or all descendants when the recursive flag is set);
  the thread pool's `as_completed` stream is a `completionOrder` list
  (a permutation of the submitted files, since workers finish out of
  order); the cooperative cancellation flag is summarised by the index
  of the first dispatch-loop iteration whose flag check reads true
  (`cancelAt : Option Nat`, `none` meaning the flag is never observed).
* Written files are represented by their (filename, content) pair; a
  CSV file is its list of rows, a JSON file its object shape.  A raised
  `ValueError` is an `Except.error`; an error value carries no
  (filename, content) pair, i.e. no file is written on that path.
* `String.toLower`/`toUpper` of core Lean do not reduce in the kernel,
  so the embedding uses char-list versions `strToLower`/`strToUpper`
  with the same meaning on the ASCII data appearing here.
-/

/-! ## String helpers -/

/-- Lower-case a string character by character (model of Python `str.lower`). -/
def strToLower (s : String) : String := String.mk (s.toList.map Char.toLower)

/-- Upper-case a string character by character (model of Python `str.upper`). -/
def strToUpper (s : String) : String := String.mk (s.toList.map Char.toUpper)

/-- Zero-pad the decimal rendering of `n` to `width` characters
(model of the zero-padded `strftime` fields `%Y %m %d %H %M %S`). -/
def padNum (width n : Nat) : String :=
  let s := toString n
  String.mk (List.replicate (width - s.length) '0') ++ s

/-- The extension of a file name: from the last dot onward, empty when the
name has no dot, starts with its only dot, or ends with a dot
(model of Python `pathlib.PurePath.suffix`). -/
def pathSuffix (name : String) : String :=
  let cs := name.toList
  match cs.reverse.findIdx? (fun c => c = '.') with
  | none => ""
  | some rj =>
    let i := cs.length - 1 - rj
    if 0 < i ∧ i < cs.length - 1 then String.mk (cs.drop i) else ""

/-- The final component of a path: everything after the last slash
(model of Python `pathlib.PurePath.name` for the names used here). -/
def baseName (path : String) : String :=
  String.mk ((path.toList.reverse.takeWhile (fun c => c ≠ '/')).reverse)

/-- Does `name` match the glob pattern `*` followed by `sfx`?  `*` matches any
(possibly empty) sequence, so the pattern holds exactly when `sfx` is a
suffix of `name`, compared case-sensitively as POSIX `pathlib.Path.glob`
does (model of `folder_path.glob("*" + ext)` membership). -/
def globStarMatch (sfx : String) (name : String) : Bool :=
  name.toList.reverse.take sfx.toList.length == sfx.toList.reverse

/-! ## `src/utils/helpers.py` -/

/-- `get_supported_image_extensions`: the supported image extensions. -/
def get_supported_image_extensions : List String := [".jpg", ".jpeg", ".png", ".bmp"]

/-- `is_supported_image`: the file's suffix, lower-cased, is a supported
extension. -/
def is_supported_image (file_path : String) : Bool :=
  get_supported_image_extensions.contains (strToLower (pathSuffix file_path))

/-- A wall-clock timestamp at second resolution, the input to the
`strftime` calls. -/
structure Timestamp where
  year : Nat
  month : Nat
  day : Nat
  hour : Nat
  minute : Nat
  second : Nat
deriving DecidableEq

/-- The date half `%Y%m%d` of a formatted timestamp. -/
def dateString (t : Timestamp) : String :=
  padNum 4 t.year ++ padNum 2 t.month ++ padNum 2 t.day

/-- The time half `%H%M%S` of a formatted timestamp. -/
def timeString (t : Timestamp) : String :=
  padNum 2 t.hour ++ padNum 2 t.minute ++ padNum 2 t.second

/-- `generate_timestamp_filename`: the name is
`prefix + "_" + strftime("%Y%m%d_%H%M%S") + "." + extension` — note the
underscore between the date and time halves. -/
def generate_timestamp_filename (pre extension : String) (now : Timestamp) : String :=
  pre ++ "_" ++ (dateString now ++ "_" ++ timeString now) ++ "." ++ extension

/-! ## `src/analysis.py`: the inference gateway -/

/-- An analysis record: the attribute dictionary DeepFace returns for one
face, as an insertion-ordered key/value list (values rendered as strings;
their structure is irrelevant to the properties proved here). -/
abbrev AnalysisRecord := List (String × String)

/-- Python dict assignment `d[k] = v` on the insertion-ordered
key/value list: overwrite an existing key in place, else append. -/
def setKey (r : AnalysisRecord) (k v : String) : AnalysisRecord :=
  if r.any (fun p => p.1 = k) then
    r.map (fun p => if p.1 = k then (k, v) else p)
  else r ++ [(k, v)]

/-- The default action list substituted by `analyze_face` when `actions`
is `None`. -/
def defaultActions : List String := ["age", "gender", "emotion", "race"]

/-- `FaceAnalyzer.analyze_face`: replace a missing (`None`) action list by
the four defaults — an empty list is not replaced — and invoke the opaque
external gateway, which returns the first detected face's record or `none`
(no face / library error, both absorbed by the `try/except`). -/
def FaceAnalyzer.analyze_face (deepface : List String → Option AnalysisRecord)
    (actions : Option (List String)) : Option AnalysisRecord :=
  let acts := match actions with
    | none => defaultActions
    | some a => a
  deepface acts

/-! ## `src/batch_processor.py` -/

/-- The filesystem view `process_folder` consults: whether the input path
exists and is a directory, and the candidate file names it can enumerate
(the folder's direct entries, or all descendants when `recursive`). -/
structure FolderInput where
  pathExists : Bool
  isDir : Bool
  files : List String
deriving DecidableEq

/-- The extension literals the discovery loop iterates over
(`for ext in ['.jpg', '.jpeg', '.png', '.bmp']`). -/
def supportedGlobExts : List String := [".jpg", ".jpeg", ".png", ".bmp"]

/-- The files matching one glob pattern `*ext`. -/
def globFilter (files : List String) (sfx : String) : List String :=
  files.filter (fun f => globStarMatch sfx f)

/-- The discovery loop of `process_folder`: for each supported extension,
extend the list with the matches of `*ext` and then of `*EXT`
(`ext.upper()`); only the all-lowercase and all-uppercase spellings are
globbed. -/
def discoverFiles (files : List String) : List String :=
  supportedGlobExts.foldl
    (fun acc ext => (acc ++ globFilter files ext) ++ globFilter files (strToUpper ext)) []

/-- `BatchProcessor._process_single_file`: run the gateway on one file and,
on success, attach `file_path` and `file_name` to the record; `none`
(including any raised error, absorbed by the `try/except`) marks failure. -/
def BatchProcessor.processSingleFile
    (deepface : String → List String → Option AnalysisRecord)
    (file : String) (actions : Option (List String)) : Option AnalysisRecord :=
  match FaceAnalyzer.analyze_face (deepface file) actions with
  | some r => some (setKey (setKey r "file_path" file) "file_name" (baseName file))
  | none => none

/-- The `for future in as_completed(...)` dispatch loop of `process_folder`.
Each list element is one completed task (file, outcome) in completion
order.  Every iteration first checks the cancellation flag — `cancelAt`
counts the iterations until the check first reads true — and returns the
accumulation so far when it does; otherwise a `some` outcome is appended
to `results`, a `none` outcome appends the file path to `failed_files`,
and `processed_count` is incremented. -/
def dispatchLoop : List (String × Option AnalysisRecord) → Option Nat →
    List AnalysisRecord → List String → Nat →
    List AnalysisRecord × List String × Nat
  | [], _, results, failed, processed => (results, failed, processed)
  | (fp, res) :: rest, cancelAt, results, failed, processed =>
    if cancelAt = some 0 then (results, failed, processed)
    else
      match res with
      | some r =>
          dispatchLoop rest (cancelAt.map (fun n => n - 1)) (results ++ [r]) failed (processed + 1)
      | none =>
          dispatchLoop rest (cancelAt.map (fun n => n - 1)) results (failed ++ [fp]) (processed + 1)

/-- `BatchProcessor.process_folder`: validate the path, glob the image
files, and dispatch one gateway task per file, returning the collected
results, the failed-file list and the final `processed_count`.
`completionOrder` is the order in which the pool completes the submitted
files (a permutation of the discovered list, supplied as a hypothesis
where a theorem needs it). -/
def BatchProcessor.process_folder (folder : FolderInput)
    (actions : Option (List String))
    (deepface : String → List String → Option AnalysisRecord)
    (completionOrder : List String) (cancelAt : Option Nat) :
    List AnalysisRecord × List String × Nat :=
  if folder.pathExists = false ∨ folder.isDir = false then
    ([], ["Invalid folder path"], 0)
  else
    let image_files := discoverFiles folder.files
    if image_files.length = 0 then
      ([], ["No image files found"], 0)
    else
      dispatchLoop
        (completionOrder.map
          (fun fp => (fp, BatchProcessor.processSingleFile deepface fp actions)))
        cancelAt [] [] 0

/-- The mutable flags of a `BatchProcessor` instance. -/
structure BPState where
  processing : Bool
  cancel_flag : Bool
deriving DecidableEq

/-- `BatchProcessor.cancel_processing`: sets `cancel_flag` to `True`;
it touches nothing else and in particular never clears the flag. -/
def BatchProcessor.cancel_processing (s : BPState) : BPState :=
  { s with cancel_flag := true }

/-! ## `src/export.py` -/

/-- The column order of `pd.DataFrame(results)`: union of the records'
keys in order of first appearance. -/
def recordKeys (rs : List AnalysisRecord) : List String :=
  (rs.foldl (fun acc r => acc ++ r.map Prod.fst) []).dedup

/-- Cell lookup for one CSV row: the record's value for the column, empty
when the record lacks the key (a missing value renders as an empty CSV
cell). -/
def lookupKey (r : AnalysisRecord) (k : String) : String :=
  match r.find? (fun p => p.1 = k) with
  | some p => p.2
  | none => ""

/-- `results.to_csv(...)` content: a header row of the flattened columns
followed by one row per record. -/
def toCsvRows (rs : List AnalysisRecord) : List (List String) :=
  recordKeys rs :: rs.map (fun r => (recordKeys rs).map (lookupKey r))

/-- The CSV file content written by `Exporter.export_to_csv` (and by the
identical branch of `BatchProcessor.export_results`), as a list of rows:
data rows plus an optional blank-separated "Failed Files" section when
failures are included and present; with no records, either the failures
section alone or the single "No results found" row.  A Python-falsy
`failed_files` (`None` or `[]`) is the empty list. -/
def csvContent (results : List AnalysisRecord) (include_failed : Bool)
    (failed_files : List String) : List (List String) :=
  if !results.isEmpty then
    toCsvRows results ++
      (if include_failed && !failed_files.isEmpty then
        [[], ["Failed Files"]] ++ failed_files.map (fun f => [f])
      else [])
  else if include_failed && !failed_files.isEmpty then
    ["Failed Files"] :: failed_files.map (fun f => [f])
  else
    [["No results found"]]

/-- The shape of the JSON object written by `export_to_json`: the three
keys `results`, `failed_files` and `message`, each present or absent. -/
structure JsonExport where
  results : Option (List AnalysisRecord)
  failed_files : Option (List String)
  message : Option String
deriving DecidableEq

/-- The JSON object built by `Exporter.export_to_json` (and by the
identical branch of `BatchProcessor.export_results`): `results` when the
record list is non-empty, `failed_files` when failures are included and
present, and the sentinel `message` exactly when the dict is still empty
(`if not export_data`). -/
def jsonContent (results : List AnalysisRecord) (include_failed : Bool)
    (failed_files : List String) : JsonExport :=
  let d1 : JsonExport :=
    if !results.isEmpty then ⟨some results, none, none⟩ else ⟨none, none, none⟩
  let d2 : JsonExport :=
    if include_failed && !failed_files.isEmpty then
      { d1 with failed_files := some failed_files }
    else d1
  if d2.results.isNone && d2.failed_files.isNone then
    { d2 with message := some "No results found" }
  else d2

/-- `Exporter.export_to_csv`: the written file's name — the explicit
`filename` when supplied, else `generate_timestamp_filename` — and its
row content. -/
def Exporter.export_to_csv (results : List AnalysisRecord)
    (filename : Option String) (include_failed : Bool)
    (failed_files : List String) (now : Timestamp) :
    String × List (List String) :=
  (filename.getD (generate_timestamp_filename "face_analysis" "csv" now),
   csvContent results include_failed failed_files)

/-- `Exporter.export_to_json`: the written file's name and its JSON
object. -/
def Exporter.export_to_json (results : List AnalysisRecord)
    (filename : Option String) (include_failed : Bool)
    (failed_files : List String) (now : Timestamp) :
    String × JsonExport :=
  (filename.getD (generate_timestamp_filename "face_analysis" "json" now),
   jsonContent results include_failed failed_files)

/-- A file written by an export call: its format-specific content. -/
inductive FileContent where
  | csv : List (List String) → FileContent
  | json : JsonExport → FileContent
deriving DecidableEq

/-- `Exporter.export_results`: dispatch on `export_format.lower()`;
an unrecognized format raises `ValueError` (`Except.error`) — the error
branch produces no (filename, content) pair, so no file is written. -/
def Exporter.export_results (results : List AnalysisRecord)
    (export_format : String) (filename : Option String)
    (include_failed : Bool) (failed_files : List String) (now : Timestamp) :
    Except String (String × FileContent) :=
  if strToLower export_format = "csv" then
    Except.ok ((Exporter.export_to_csv results filename include_failed failed_files now).1,
      FileContent.csv (Exporter.export_to_csv results filename include_failed failed_files now).2)
  else if strToLower export_format = "json" then
    Except.ok ((Exporter.export_to_json results filename include_failed failed_files now).1,
      FileContent.json (Exporter.export_to_json results filename include_failed failed_files now).2)
  else
    Except.error ("Unsupported export format: " ++ export_format)

/-- `BatchProcessor.export_results`: same branch structure, but the file
name is built inline from `time.strftime("%Y%m%d-%H%M%S")` — a dash
between the date and time halves — and no explicit filename can be
supplied. -/
def BatchProcessor.export_results (results : List AnalysisRecord)
    (format : String) (include_failed : Bool) (failed_files : List String)
    (now : Timestamp) : Except String (String × FileContent) :=
  let timestamp := dateString now ++ "-" ++ timeString now
  if strToLower format = "csv" then
    Except.ok ("face_analysis_" ++ timestamp ++ ".csv",
      FileContent.csv (csvContent results include_failed failed_files))
  else if strToLower format = "json" then
    Except.ok ("face_analysis_" ++ timestamp ++ ".json",
      FileContent.json (jsonContent results include_failed failed_files))
  else
    Except.error ("Unsupported export format: " ++ format)

/-- The filename form the specification claims for auto-generated export
names: `<prefix>_<YYYYMMDD-HHMMSS>.<ext>`, date and time separated by a
dash.  Stated from the spec's words, to be compared against the source's
`generate_timestamp_filename`. -/
def claimedExportName (pre extension : String) (now : Timestamp) : String :=
  pre ++ "_" ++ (dateString now ++ "-" ++ timeString now) ++ "." ++ extension

/-! ## `src/camera.py` -/

/-- A captured frame: its pixel buffer. -/
structure Frame where
  data : List Nat
deriving DecidableEq

/-- The mutable state of a `Camera` instance: the `running` flag, whether
the capture device handle is open, whether the background thread exists,
and the shared latest-frame slot guarded by `self.lock`. -/
structure CameraState where
  running : Bool
  capOpen : Bool
  hasThread : Bool
  frame : Option Frame
deriving DecidableEq

/-- The state after `Camera.__init__`: not running, no device, no thread,
empty frame slot. -/
def Camera.init : CameraState :=
  { running := false, capOpen := false, hasThread := false, frame := none }

/-- `Camera.start`: a no-op returning `True` when already running; opens
the device (success given by `deviceOpens`), and on success sets
`running` and spawns the capture thread.  The frame slot is untouched. -/
def Camera.start (deviceOpens : Bool) (s : CameraState) : Bool × CameraState :=
  if s.running then (true, s)
  else if deviceOpens then
    (true, { s with running := true, capOpen := true, hasThread := true })
  else
    (false, { s with running := false, capOpen := false })

/-- One iteration of the `_update_frame` capture loop: when running with
an open device and the read succeeds, store the new frame in the shared
slot under the lock; otherwise the slot is left as it was. -/
def Camera.captureStep (s : CameraState) (readOk : Bool) (newFrame : Frame) :
    CameraState :=
  if s.running && s.capOpen && readOk then { s with frame := some newFrame } else s

/-- `Camera.stop`: clears `running`, joins and drops the thread, releases
the device handle.  The frame slot is not cleared. -/
def Camera.stop (s : CameraState) : CameraState :=
  { s with running := false, hasThread := false, capOpen := false }

/-- `self.frame.copy()`: a fresh buffer with the same pixel content. -/
def Camera.copyFrame (f : Frame) : Frame := ⟨f.data.map id⟩

/-- `Camera.get_frame`: under the lock, return a copy of the latest frame,
or `none` when no frame has been stored. -/
def Camera.get_frame (s : CameraState) : Option Frame :=
  s.frame.map Camera.copyFrame

/-! ## Dispatch-loop lemmas -/

/-- With the cancellation flag never observed, the dispatch loop handles
every completion: successes and failures are appended in completion order
and the processed counter advances by the number of completions. -/
theorem dispatchLoop_none (l : List (String × Option AnalysisRecord))
    (res : List AnalysisRecord) (fail : List String) (p : Nat) :
    dispatchLoop l none res fail p =
      (res ++ l.filterMap Prod.snd,
       fail ++ (l.filter (fun x => x.2.isNone)).map Prod.fst,
       p + l.length) := by
  induction l generalizing res fail p with
  | nil => simp [dispatchLoop]
  | cons x rest ih =>
    obtain ⟨fp, o⟩ := x
    cases o with
    | some r => simp [dispatchLoop, ih, List.append_assoc]; omega
    | none => simp [dispatchLoop, ih, List.append_assoc]; omega

/-- Once the flag reads true at iteration `c`, completions from index `c`
onward are never handled: the loop's outcome depends only on the first
`c` completions. -/
theorem dispatchLoop_take (l : List (String × Option AnalysisRecord)) (c : Nat)
    (res : List AnalysisRecord) (fail : List String) (p : Nat) :
    dispatchLoop l (some c) res fail p = dispatchLoop (l.take c) (some c) res fail p := by
  induction l generalizing c res fail p with
  | nil => simp
  | cons x rest ih =>
    obtain ⟨fp, o⟩ := x
    cases c with
    | zero => cases o <;> simp [dispatchLoop]
    | succ c' => cases o <;> simp [dispatchLoop, ih]

/-- A loop cancelled at iteration `c` accumulates at most `c` further
outcomes beyond what it started with. -/
theorem dispatchLoop_cancel_le (l : List (String × Option AnalysisRecord)) (c : Nat)
    (res : List AnalysisRecord) (fail : List String) (p : Nat) :
    (dispatchLoop l (some c) res fail p).1.length +
      (dispatchLoop l (some c) res fail p).2.1.length ≤ res.length + fail.length + c := by
  induction l generalizing c res fail p with
  | nil => simp [dispatchLoop]
  | cons x rest ih =>
    obtain ⟨fp, o⟩ := x
    cases c with
    | zero => cases o <;> simp [dispatchLoop]
    | succ c' =>
      cases o with
      | some r =>
        have h := ih c' (res ++ [r]) fail (p + 1)
        simp [dispatchLoop] at h ⊢
        omega
      | none =>
        have h := ih c' res (fail ++ [fp]) (p + 1)
        simp [dispatchLoop] at h ⊢
        omega

/-- Every file contributes exactly one outcome: the successes and the
failures of a full pass over `l` partition it. -/
theorem filterMap_length_add (g : String → Option AnalysisRecord) (l : List String) :
    (l.filterMap g).length + (l.filter (fun f => (g f).isNone)).length = l.length := by
  induction l with
  | nil => simp
  | cons f rest ih =>
    cases h : g f <;> simp [List.filterMap_cons, List.filter_cons, h] <;> omega

/-! ## Claims about `BatchProcessor.process_folder` -/

/-- C1: for a folder with `N > 0` discovered supported images, a run of
`process_folder` that completes without cancellation ends with
`processed_count = N`, with the successful records plus the failed-file
entries numbering `N`, and with every discovered file contributing exactly
one success (its gateway outcome) or exactly one failure (its path). -/
theorem batch_counts_complete (folder : FolderInput) (actions : Option (List String))
    (deepface : String → List String → Option AnalysisRecord)
    (completionOrder : List String) (N : Nat)
    (hex : folder.pathExists = true) (hdir : folder.isDir = true)
    (hN : (discoverFiles folder.files).length = N) (hpos : 0 < N)
    (hperm : completionOrder.Perm (discoverFiles folder.files)) :
    (BatchProcessor.process_folder folder actions deepface completionOrder none).2.2 = N ∧
    (BatchProcessor.process_folder folder actions deepface completionOrder none).1.length +
      (BatchProcessor.process_folder folder actions deepface completionOrder none).2.1.length
        = N ∧
    (BatchProcessor.process_folder folder actions deepface completionOrder none).1 =
      completionOrder.filterMap
        (fun fp => BatchProcessor.processSingleFile deepface fp actions) ∧
    (BatchProcessor.process_folder folder actions deepface completionOrder none).2.1 =
      completionOrder.filter
        (fun fp => (BatchProcessor.processSingleFile deepface fp actions).isNone) := by
  have hlen : completionOrder.length = N := by rw [hperm.length_eq, hN]
  have hvalid : ¬ (folder.pathExists = false ∨ folder.isDir = false) := by
    simp [hex, hdir]
  have h0 : ¬ (discoverFiles folder.files).length = 0 := by omega
  simp only [BatchProcessor.process_folder, if_neg hvalid, if_neg h0, dispatchLoop_none,
    List.nil_append, List.filterMap_map, List.filter_map, List.map_map, Nat.zero_add]
  have hsnd : (Prod.snd ∘ fun fp =>
      (fp, BatchProcessor.processSingleFile deepface fp actions)) =
      fun fp => BatchProcessor.processSingleFile deepface fp actions := rfl
  have hfst : (Prod.fst ∘ fun fp =>
      (fp, BatchProcessor.processSingleFile deepface fp actions)) = id := rfl
  have hpred : ((fun x : String × Option AnalysisRecord => x.2.isNone) ∘ fun fp =>
      (fp, BatchProcessor.processSingleFile deepface fp actions)) =
      fun fp => (BatchProcessor.processSingleFile deepface fp actions).isNone := rfl
  rw [hsnd, hfst, hpred, List.map_id, List.length_map, hlen]
  refine ⟨rfl, ?_, rfl, rfl⟩
  rw [filterMap_length_add, hlen]

/-- A concrete inference gateway used by the witnesses: it finds a face in
`.jpg` files, reporting how many actions it was asked for, and finds none
otherwise. -/
def dfWitness : String → List String → Option AnalysisRecord :=
  fun fp acts =>
    if globStarMatch ".jpg" fp then
      some [("age", "25"), ("num_actions", toString acts.length)]
    else none

/-- Witness for C1 at a folder of two images completing out of order. -/
theorem batch_counts_complete_witness :
    (BatchProcessor.process_folder ⟨true, true, ["a.jpg", "b.png"]⟩ none dfWitness
        ["b.png", "a.jpg"] none).2.2 = 2 ∧
    (BatchProcessor.process_folder ⟨true, true, ["a.jpg", "b.png"]⟩ none dfWitness
        ["b.png", "a.jpg"] none).1.length +
      (BatchProcessor.process_folder ⟨true, true, ["a.jpg", "b.png"]⟩ none dfWitness
        ["b.png", "a.jpg"] none).2.1.length = 2 := by
  have h := batch_counts_complete ⟨true, true, ["a.jpg", "b.png"]⟩ none dfWitness
    ["b.png", "a.jpg"] 2 rfl rfl (by decide) (by decide) (by decide)
  exact ⟨h.1, h.2.1⟩

/-- C2: on a started batch (valid folder, files found), cancellation at
iteration `c` — which happens no later than the `K`-th handled completion
when the flag was set after `K` tasks had completed — makes the dispatch
loop issue no result drawn from completions beyond the first `c`, bounds
the accumulated successes plus failures by `K`, and `cancel_processing`
only ever sets the flag (it maps every state to one with the flag true,
never clearing an already-set flag). -/
theorem cancellation_stops_dispatch (folder : FolderInput)
    (actions : Option (List String))
    (deepface : String → List String → Option AnalysisRecord)
    (completionOrder : List String) (c K : Nat) (s : BPState)
    (hex : folder.pathExists = true) (hdir : folder.isDir = true)
    (hfiles : (discoverFiles folder.files).length ≠ 0)
    (hcK : c ≤ K) :
    BatchProcessor.process_folder folder actions deepface completionOrder (some c)
      = BatchProcessor.process_folder folder actions deepface
          (completionOrder.take c) (some c) ∧
    (BatchProcessor.process_folder folder actions deepface completionOrder
        (some c)).1.length +
      (BatchProcessor.process_folder folder actions deepface completionOrder
        (some c)).2.1.length ≤ K ∧
    (BatchProcessor.cancel_processing s).cancel_flag = true := by
  have hvalid : ¬ (folder.pathExists = false ∨ folder.isDir = false) := by
    simp [hex, hdir]
  refine ⟨?_, ?_, rfl⟩
  · simp only [BatchProcessor.process_folder, if_neg hvalid, if_neg hfiles]
    rw [dispatchLoop_take, ← List.map_take]
  · simp only [BatchProcessor.process_folder, if_neg hvalid, if_neg hfiles]
    have h := dispatchLoop_cancel_le
      (completionOrder.map
        (fun fp => (fp, BatchProcessor.processSingleFile deepface fp actions)))
      c [] [] 0
    simp only [List.length_nil, Nat.zero_add] at h
    omega

/-- Witness for C2: a two-image batch cancelled after one completion
keeps at most one outcome. -/
theorem cancellation_stops_dispatch_witness :
    (BatchProcessor.process_folder ⟨true, true, ["a.jpg", "b.jpg"]⟩ none dfWitness
        ["a.jpg", "b.jpg"] (some 1)).1.length +
      (BatchProcessor.process_folder ⟨true, true, ["a.jpg", "b.jpg"]⟩ none dfWitness
        ["a.jpg", "b.jpg"] (some 1)).2.1.length ≤ 1 ∧
    (BatchProcessor.cancel_processing ⟨true, false⟩).cancel_flag = true := by
  have h := cancellation_stops_dispatch ⟨true, true, ["a.jpg", "b.jpg"]⟩ none dfWitness
    ["a.jpg", "b.jpg"] 1 1 ⟨true, false⟩ rfl rfl (by decide) (Nat.le_refl 1)
  exact ⟨h.2.1, h.2.2⟩

/-- C4: a non-existent or non-directory path yields the empty result with
the single sentinel failure "Invalid folder path"; an existing directory
discovering zero supported images yields the empty result with the single
sentinel "No image files found"; in both cases the processed counter stays
at zero — no inference task is ever dispatched. -/
theorem invalid_inputs_sentinels (folder : FolderInput)
    (actions : Option (List String))
    (deepface : String → List String → Option AnalysisRecord)
    (completionOrder : List String) (cancelAt : Option Nat) :
    ((folder.pathExists = false ∨ folder.isDir = false) →
      BatchProcessor.process_folder folder actions deepface completionOrder cancelAt
        = ([], ["Invalid folder path"], 0)) ∧
    (folder.pathExists = true → folder.isDir = true →
      discoverFiles folder.files = [] →
      BatchProcessor.process_folder folder actions deepface completionOrder cancelAt
        = ([], ["No image files found"], 0)) := by
  constructor
  · intro h
    simp [BatchProcessor.process_folder, h]
  · intro h1 h2 h3
    have hvalid : ¬ (folder.pathExists = false ∨ folder.isDir = false) := by
      simp [h1, h2]
    simp [BatchProcessor.process_folder, if_neg hvalid, h3]

/-- Witness for C4 at a missing path and at a folder holding only a text
file. -/
theorem invalid_inputs_sentinels_witness :
    BatchProcessor.process_folder ⟨false, true, ["a.jpg"]⟩ none dfWitness [] none
      = ([], ["Invalid folder path"], 0) ∧
    BatchProcessor.process_folder ⟨true, true, ["notes.txt"]⟩ none dfWitness [] none
      = ([], ["No image files found"], 0) := by
  constructor
  · exact (invalid_inputs_sentinels ⟨false, true, ["a.jpg"]⟩ none dfWitness [] none).1
      (Or.inl rfl)
  · exact (invalid_inputs_sentinels ⟨true, true, ["notes.txt"]⟩ none dfWitness [] none).2
      rfl rfl (by decide)

/-- A gateway that records how many actions it was invoked with, used to
exhibit that an empty action list reaches the inference call unchanged. -/
def dfCountActions : String → List String → Option AnalysisRecord :=
  fun _ acts => some [("num_actions", toString acts.length)]

/-- C3 counterexample: calling `process_folder` on a valid one-image
folder with the empty action list does not fail — no `InvalidInput` path
for actions exists in the code — and the file is processed: the processed
counter ends at 1 and the gateway was invoked with the empty list
(`num_actions = 0`), refuting "reported immediately ... does not start
processing any file". -/
theorem empty_actions_not_rejected :
    BatchProcessor.process_folder ⟨true, true, ["a.jpg"]⟩ (some []) dfCountActions
        ["a.jpg"] none
      = ([[("num_actions", "0"), ("file_path", "a.jpg"), ("file_name", "a.jpg")]],
         [], 1) := by decide

/-- C3 amended: `process_folder` performs no validation of the action
set.  `analyze_face` substitutes the four default actions only when the
action list is missing (`None`); an explicit list — the empty list
included — is forwarded unchanged to the gateway, and for a valid folder
with discovered files the batch proceeds to dispatch every completion
even when the action list is empty. -/
theorem empty_actions_forwarded (folder : FolderInput)
    (deepface : String → List String → Option AnalysisRecord)
    (g : List String → Option AnalysisRecord)
    (completionOrder : List String) (a : List String)
    (hex : folder.pathExists = true) (hdir : folder.isDir = true)
    (hfiles : (discoverFiles folder.files).length ≠ 0) :
    FaceAnalyzer.analyze_face g (some a) = g a ∧
    FaceAnalyzer.analyze_face g none = g defaultActions ∧
    (BatchProcessor.process_folder folder (some []) deepface completionOrder none).2.2
      = completionOrder.length := by
  have hvalid : ¬ (folder.pathExists = false ∨ folder.isDir = false) := by
    simp [hex, hdir]
  have hne : ¬ discoverFiles folder.files = [] := by
    intro h
    exact hfiles (by rw [h]; rfl)
  refine ⟨rfl, rfl, ?_⟩
  simp [BatchProcessor.process_folder, if_neg hvalid, if_neg hfiles, hne, dispatchLoop_none]

/-- Witness for the amended C3 at a one-image folder. -/
theorem empty_actions_forwarded_witness :
    FaceAnalyzer.analyze_face (dfCountActions "x") (some []) = some [("num_actions", "0")] ∧
    (BatchProcessor.process_folder ⟨true, true, ["a.jpg"]⟩ (some []) dfWitness
        ["a.jpg"] none).2.2 = 1 := by
  have h := empty_actions_forwarded ⟨true, true, ["a.jpg"]⟩ dfWitness
    (dfCountActions "x") ["a.jpg"] [] rfl rfl (by decide)
  refine ⟨?_, h.2.2⟩
  rw [h.1]
  decide

/-! ## Claims about file discovery -/

/-- Accumulator lemma for the discovery fold: a file already accumulated,
or matching the lowercase or uppercase glob of some remaining extension,
ends up in the fold's result. -/
theorem mem_discover_foldl (el : List String) (files : List String) (f : String)
    (acc : List String)
    (h : f ∈ acc ∨ ∃ e ∈ el, f ∈ files ∧
      (globStarMatch e f = true ∨ globStarMatch (strToUpper e) f = true)) :
    f ∈ el.foldl
      (fun acc ext => (acc ++ globFilter files ext) ++ globFilter files (strToUpper ext))
      acc := by
  induction el generalizing acc with
  | nil =>
    rcases h with h | ⟨e, he, _⟩
    · exact h
    · cases he
  | cons e0 rest ih =>
    rcases h with h | ⟨e, he, hmem, hmatch⟩
    · refine ih _ (Or.inl ?_)
      simp only [List.mem_append]
      exact Or.inl (Or.inl h)
    · rcases List.mem_cons.mp he with rfl | he'
      · refine ih _ (Or.inl ?_)
        simp only [List.mem_append, globFilter, List.mem_filter]
        rcases hmatch with hm | hm
        · exact Or.inl (Or.inr ⟨hmem, hm⟩)
        · exact Or.inr ⟨hmem, hm⟩
      · exact ih _ (Or.inr ⟨e, he', hmem, hmatch⟩)

/-- C5 amended: discovery includes every enumerable file whose name ends
with the all-lowercase or the all-uppercase spelling of a supported
extension (`*.jpg` or `*.JPG`, etc.); extensions in any other mixture of
letter cases are not matched by the glob patterns `process_folder`
issues, although `is_supported_image` would accept them
case-insensitively. -/
theorem discovery_upper_lower (files : List String) (f e : String)
    (hmem : f ∈ files) (he : e ∈ supportedGlobExts)
    (hmatch : globStarMatch e f = true ∨ globStarMatch (strToUpper e) f = true) :
    f ∈ discoverFiles files := by
  unfold discoverFiles
  exact mem_discover_foldl supportedGlobExts files f [] (Or.inr ⟨e, he, hmem, hmatch⟩)

/-- Witness for the amended C5: an uppercase `.PNG` file is discovered. -/
theorem discovery_upper_lower_witness : "a.PNG" ∈ discoverFiles ["a.PNG"] :=
  discovery_upper_lower ["a.PNG"] "a.PNG" ".png" (by decide) (by decide)
    (Or.inr (by decide))

/-- C5 counterexample: `photo.Jpg` carries a supported extension under
case-insensitive comparison (`is_supported_image` accepts it), yet the
discovery globs match neither `*.jpg` nor `*.JPG`, so `process_folder`
on a folder holding only that file discovers nothing and returns the
"No image files found" sentinel instead of submitting the file. -/
theorem mixed_case_extension_not_discovered :
    is_supported_image "photo.Jpg" = true ∧
    discoverFiles ["photo.Jpg"] = [] ∧
    BatchProcessor.process_folder ⟨true, true, ["photo.Jpg"]⟩ none dfWitness
        ["photo.Jpg"] none
      = ([], ["No image files found"], 0) := by
  refine ⟨by decide, by decide, by decide⟩

/-! ## Claims about `Camera.get_frame` -/

/-- C6 counterexample: after a successful `start`, one captured frame and
a `stop`, `get_frame` still returns (a copy of) the last captured frame —
`stop` does not clear the frame slot — refuting "at any time after stop
has returned, returns no frame". -/
theorem frame_persists_after_stop :
    Camera.get_frame
        (Camera.stop
          (Camera.captureStep (Camera.start true Camera.init).2 true ⟨[5, 6]⟩))
      = some ⟨[5, 6]⟩ ∧
    Camera.get_frame
        (Camera.stop
          (Camera.captureStep (Camera.start true Camera.init).2 true ⟨[5, 6]⟩))
      ≠ none := by
  refine ⟨by decide, by decide⟩

/-- C6 amended: `get_frame` returns no frame exactly while no frame has
been captured — in particular in the initial state, and still after a
`start` alone, since `start` does not write the slot; once a frame is
stored it returns a copy of it, equal in content to the stored buffer;
`stop` leaves the frame slot untouched, so after `stop` the last captured
frame (not `none`) is returned.  Reference aliasing between the returned
copy and the loop's internal buffer has no counterpart in this value
model; the copy is characterised by content equality. -/
theorem get_frame_behavior (s : CameraState) (f : Frame) (deviceOpens : Bool) :
    Camera.get_frame Camera.init = none ∧
    (Camera.start deviceOpens Camera.init).2.frame = none ∧
    (s.frame = some f →
      Camera.get_frame s = some (Camera.copyFrame f) ∧
        (Camera.copyFrame f).data = f.data) ∧
    (s.frame = none → Camera.get_frame s = none) ∧
    (Camera.stop s).frame = s.frame := by
  refine ⟨rfl, ?_, ?_, ?_, rfl⟩
  · cases deviceOpens <;> simp [Camera.start, Camera.init]
  · intro h
    simp [Camera.get_frame, Camera.copyFrame, h]
  · intro h
    simp [Camera.get_frame, h]

/-- Witness for the amended C6 on a camera that captured one frame. -/
theorem get_frame_behavior_witness :
    Camera.get_frame
        (Camera.captureStep (Camera.start true Camera.init).2 true ⟨[1, 2]⟩)
      = some (Camera.copyFrame ⟨[1, 2]⟩) ∧
    (Camera.copyFrame (⟨[1, 2]⟩ : Frame)).data = [1, 2] := by
  have h := get_frame_behavior
    (Camera.captureStep (Camera.start true Camera.init).2 true ⟨[1, 2]⟩) ⟨[1, 2]⟩ true
  have hs := h.2.2.1 (by decide)
  exact ⟨hs.1, hs.2⟩

/-! ## Claims about the exporter -/

/-- C7: exporting an empty result collection with an empty failure list —
whether or not failures are requested — writes, for CSV, the single row
"No results found", and, for JSON, exactly the object with the lone
`message` key "No results found". -/
theorem export_empty_no_results (include_failed : Bool)
    (filename : Option String) (now : Timestamp) :
    (Exporter.export_to_csv [] filename include_failed [] now).2
      = [["No results found"]] ∧
    (Exporter.export_to_json [] filename include_failed [] now).2
      = { results := none, failed_files := none, message := some "No results found" } := by
  constructor
  · simp [Exporter.export_to_csv, csvContent]
  · simp [Exporter.export_to_json, jsonContent]

/-- C8 counterexample: the format string "CSV" differs from both
recognized values 'csv' and 'json', yet `export_results` does not raise:
the comparison is against `format.lower()`, so "CSV" is accepted and a
CSV file is written. -/
theorem uppercase_format_accepted :
    ("CSV" = "csv" → False) ∧ ("CSV" = "json" → False) ∧
    Exporter.export_results [] "CSV" none true [] ⟨2026, 10, 12, 9, 8, 7⟩
      = Except.ok ("face_analysis_20261012_090807.csv",
          FileContent.csv [["No results found"]]) ∧
    BatchProcessor.export_results [] "CSV" true [] ⟨2026, 10, 12, 9, 8, 7⟩
      = Except.ok ("face_analysis_20261012-090807.csv",
          FileContent.csv [["No results found"]]) := by
  refine ⟨by decide, by decide, rfl, rfl⟩

/-- C8 amended: for every format string whose lower-cased form is neither
"csv" nor "json", both `Exporter.export_results` and
`BatchProcessor.export_results` raise the `Unsupported export format`
error, and the error branch produces no (filename, content) pair — no
output file is written on it. -/
theorem unsupported_format_error (results : List AnalysisRecord)
    (filename : Option String) (include_failed : Bool)
    (failed_files : List String) (now : Timestamp) (export_format : String)
    (h1 : strToLower export_format ≠ "csv")
    (h2 : strToLower export_format ≠ "json") :
    Exporter.export_results results export_format filename include_failed
        failed_files now
      = Except.error ("Unsupported export format: " ++ export_format) ∧
    BatchProcessor.export_results results export_format include_failed
        failed_files now
      = Except.error ("Unsupported export format: " ++ export_format) := by
  constructor
  · simp [Exporter.export_results, if_neg h1, if_neg h2]
  · simp [BatchProcessor.export_results, if_neg h1, if_neg h2]

/-- Witness for the amended C8 at the format string "xml". -/
theorem unsupported_format_error_witness :
    Exporter.export_results [] "xml" none true [] ⟨2026, 1, 2, 3, 4, 5⟩
      = Except.error ("Unsupported export format: " ++ "xml") ∧
    BatchProcessor.export_results [] "xml" true [] ⟨2026, 1, 2, 3, 4, 5⟩
      = Except.error ("Unsupported export format: " ++ "xml") :=
  unsupported_format_error [] none true [] ⟨2026, 1, 2, 3, 4, 5⟩ "xml"
    (by decide) (by decide)

/-- C9 counterexample: an export through `Exporter.export_to_csv` with no
explicit filename is named with `generate_timestamp_filename`, whose
date and time halves are separated by an underscore, not the dash the
claimed form `<prefix>_<YYYYMMDD-HHMMSS>.<ext>` requires: at the concrete
timestamp 2026-10-12 09:08:07 the generated name is
`face_analysis_20261012_090807.csv`, which differs from the claimed
`face_analysis_20261012-090807.csv`. -/
theorem underscore_timestamp_filename :
    (Exporter.export_to_csv [] none true [] ⟨2026, 10, 12, 9, 8, 7⟩).1
      = "face_analysis_20261012_090807.csv" ∧
    claimedExportName "face_analysis" "csv" ⟨2026, 10, 12, 9, 8, 7⟩
      = "face_analysis_20261012-090807.csv" ∧
    (Exporter.export_to_csv [] none true [] ⟨2026, 10, 12, 9, 8, 7⟩).1
      ≠ claimedExportName "face_analysis" "csv" ⟨2026, 10, 12, 9, 8, 7⟩ := by
  refine ⟨by decide, by decide, by decide⟩

/-- C9 amended: two distinct auto-naming schemes exist.  Exports through
the `Exporter` (CSV or JSON, no explicit filename) are named by
`generate_timestamp_filename`: fixed prefix, underscore, then a
second-resolution timestamp whose date and time halves are separated by
an underscore (`<prefix>_<YYYYMMDD_HHMMSS>.<ext>`).  Exports through
`BatchProcessor.export_results` use the claimed dash-separated form
`<prefix>_<YYYYMMDD-HHMMSS>.<ext>`.  In both, the extension matches the
chosen format. -/
theorem export_filename_forms (results : List AnalysisRecord)
    (include_failed : Bool) (failed_files : List String) (now : Timestamp)
    (pre extension : String) :
    generate_timestamp_filename pre extension now
      = pre ++ "_" ++ (dateString now ++ "_" ++ timeString now) ++ "." ++ extension ∧
    (Exporter.export_to_csv results none include_failed failed_files now).1
      = generate_timestamp_filename "face_analysis" "csv" now ∧
    (Exporter.export_to_json results none include_failed failed_files now).1
      = generate_timestamp_filename "face_analysis" "json" now ∧
    BatchProcessor.export_results results "csv" include_failed failed_files now
      = Except.ok (claimedExportName "face_analysis" "csv" now,
          FileContent.csv (csvContent results include_failed failed_files)) ∧
    BatchProcessor.export_results results "json" include_failed failed_files now
      = Except.ok (claimedExportName "face_analysis" "json" now,
          FileContent.json (jsonContent results include_failed failed_files)) := by
  refine ⟨rfl, rfl, rfl, ?_, ?_⟩
  · show Except.ok ("face_analysis_" ++ (dateString now ++ "-" ++ timeString now) ++ ".csv",
      FileContent.csv (csvContent results include_failed failed_files)) = _
    rw [claimedExportName]
    rw [show ("face_analysis_" : String) = "face_analysis" ++ "_" from rfl,
        show (".csv" : String) = "." ++ "csv" from rfl]
    simp only [String.append_assoc]
  · show Except.ok ("face_analysis_" ++ (dateString now ++ "-" ++ timeString now) ++ ".json",
      FileContent.json (jsonContent results include_failed failed_files)) = _
    rw [claimedExportName]
    rw [show ("face_analysis_" : String) = "face_analysis" ++ "_" from rfl,
        show (".json" : String) = "." ++ "json" from rfl]
    simp only [String.append_assoc]

/-- C10: with `include_failed` false, the exported output never contains
a failure entry: for both formats the output coincides with the output
for an empty failure list, and an empty result collection still yields
the "No results found" row (CSV) or message object (JSON) no matter what
the failure list holds. -/
theorem exclude_failed_no_failures (results : List AnalysisRecord)
    (failed_files : List String) (filename : Option String) (now : Timestamp) :
    csvContent results false failed_files = csvContent results false [] ∧
    jsonContent results false failed_files = jsonContent results false [] ∧
    (Exporter.export_to_csv [] filename false failed_files now).2
      = [["No results found"]] ∧
    (Exporter.export_to_json [] filename false failed_files now).2
      = { results := none, failed_files := none, message := some "No results found" } := by
  refine ⟨?_, ?_, ?_, ?_⟩
  · simp [csvContent]
  · simp [jsonContent]
  · simp [Exporter.export_to_csv, csvContent]
  · simp [Exporter.export_to_json, jsonContent]
